import Mathlib

/-!
# Verification of the DS1307 real-time-clock driver

A shallow embedding of `src/src/DS1307Lib.cpp` (class `DS1307Clock`).  Bytes
are modelled as `Nat` with an explicit `% 256` wherever the C code truncates
to `uint8_t`.  The driver's static flags become an explicit `ClockState`
threaded through the operations; the Arduino `Wire` bus becomes an oracle
record saying how each transaction turns out, and every operation records the
bus transactions it issued as a `List BusOp` trace.
-/

namespace DS1307

/-- Broken-down time exchanged with the calendar layer (TimeLib's
`tmElements_t`); every field is a byte. -/
structure TmElements where
  Second : Nat
  Minute : Nat
  Hour   : Nat
  Wday   : Nat
  Day    : Nat
  Month  : Nat
  Year   : Nat
deriving Repr, DecidableEq

/-- The static flags of `DS1307Clock` that the time path reads or writes
(`present`, `mode12_24`, `am_pm`; see DS1307Lib.h lines 70-73). -/
structure ClockState where
  present   : Bool
  mode12_24 : Bool
  am_pm     : Bool
deriving Repr, DecidableEq

/-- `DS1307Clock::dToBcd` (DS1307Lib.cpp line 151): tens digit into the high
nibble, units digit into the low nibble; argument and result are `uint8_t`. -/
def dToBcd (num : Nat) : Nat :=
  let n := num % 256
  (((n / 10) <<< 4) ||| (n % 10)) % 256

/-- `DS1307Clock::bcdToD` (DS1307Lib.cpp line 155): tens from the high
nibble, units from the low nibble; argument and result are `uint8_t`. -/
def bcdToD (num : Nat) : Nat :=
  let n := num % 256
  ((n >>> 4) * 10 + (n &&& 0x0F)) % 256

/-- `DS1307Clock::decodeHourRegister` (DS1307Lib.cpp lines 160-190).  Returns
the decoded hour and the state with `mode12_24`/`am_pm` updated as the side
effects of the decode. -/
def decodeHourRegister (st : ClockState) (hourReg : Nat) : Nat × ClockState :=
  let hourReg := hourReg % 256
  if hourReg &&& 0x40 ≠ 0 then
    -- 12-hour format (bit 6 is active)
    let st := { st with mode12_24 := true }
    let hour := bcdToD (hourReg &&& 0x1F)
    let (hour, st) :=
      if hourReg &&& 0x20 ≠ 0 then (hour + 12, { st with am_pm := true })
      else (hour, { st with am_pm := false })
    let hour := if hour = 24 then 0 else hour
    (hour, st)
  else
    -- 24-hour format
    let st := { st with mode12_24 := false, am_pm := false }
    (bcdToD (hourReg &&& 0x3F), st)

/-- `DS1307Clock::encodeHourRegister` (DS1307Lib.cpp lines 193-210).  Reads
the `mode12_24` and `am_pm` flags from the state. -/
def encodeHourRegister (st : ClockState) (hour : Nat) : Nat :=
  let hour := hour % 256
  if st.mode12_24 then
    let hourReg := dToBcd (hour % 12)
    let hourReg := if hour = 0 ∨ hour = 12 then dToBcd 12 else hourReg
    let hourReg := hourReg ||| 0x40
    if st.am_pm then hourReg ||| 0x20 else hourReg
  else
    dToBcd hour

/-- Modelled from the spec: `tmYearToY2k`, the host-to-chip year rebase, lives
in the external TimeLib header and is not part of this repository's sources.
Spec §3 fixes the host year as an "offset from a 2000 epoch" and §6 the chip
year register as "0-99, offset from 2000", so the rebase is the identity on a
byte. -/
def tmYearToY2k (y : Nat) : Nat := y % 256

/-- Modelled from the spec: `y2kYearToTm`, the chip-to-host year rebase from
the external TimeLib header; identity on a byte, see `tmYearToY2k`. -/
def y2kYearToTm (y : Nat) : Nat := y % 256

/-- One bus transaction issued by the driver: `transmit bytes` is one
`beginTransmission` / `write*` / `endTransmission` sequence carrying the given
payload bytes, `request n` is one `requestFrom` asking for `n` bytes. -/
inductive BusOp
  | transmit (bytes : List Nat)
  | request (n : Nat)
deriving Repr, DecidableEq

/-- Bus behaviour offered to `readTime`: whether the pointer-write
transmission is acknowledged (`endTransmission() == 0`), and the bytes the
7-byte burst read makes available. -/
structure ReadBus where
  ptrAck : Bool
  recv   : List Nat
deriving Repr, DecidableEq

/-- Outcome of `readTime`: the boolean return value, the updated flags, the
caller's `tm` argument after the call (passed by reference in C), and the bus
transactions issued. -/
structure ReadResult where
  ok  : Bool
  st  : ClockState
  tm  : TmElements
  ops : List BusOp
deriving Repr, DecidableEq

/-- `DS1307Clock::readTime` (DS1307Lib.cpp lines 50-78): pointer write to
register 0x00, then a 7-byte burst read decoded field by field; the caller's
`tm` is mutated in place as each byte is decoded. -/
def readTime (st : ClockState) (bus : ReadBus) (tm : TmElements) : ReadResult :=
  if ¬ bus.ptrAck then
    { ok := false, st := { st with present := false }, tm := tm,
      ops := [BusOp.transmit [0x00]] }
  else
    let st := { st with present := true }
    let ops := [BusOp.transmit [0x00], BusOp.request 7]
    if bus.recv.length < 7 then
      { ok := false, st := st, tm := tm, ops := ops }
    else
      let sec := bus.recv.getD 0 0 % 256
      let tm := { tm with Second := bcdToD (sec &&& 0x7F) }
      let tm := { tm with Minute := bcdToD (bus.recv.getD 1 0) }
      let hourReg := bus.recv.getD 2 0
      let (hour, st) := decodeHourRegister st hourReg
      let tm := { tm with Hour := hour }
      let tm := { tm with Wday := bcdToD (bus.recv.getD 3 0) }
      let tm := { tm with Day := bcdToD (bus.recv.getD 4 0) }
      let tm := { tm with Month := bcdToD (bus.recv.getD 5 0) }
      let tm := { tm with Year := y2kYearToTm (bcdToD (bus.recv.getD 6 0)) }
      if sec &&& 0x80 ≠ 0 then { ok := false, st := st, tm := tm, ops := ops }
      else { ok := true, st := st, tm := tm, ops := ops }

/-- Bus behaviour offered to `writeTime`: the acknowledgment of each of its
two transmissions. -/
structure WriteBus where
  tx1Ack : Bool
  tx2Ack : Bool
deriving Repr, DecidableEq

/-- Outcome of `writeTime`: return value, updated flags, issued transactions. -/
structure WriteResult where
  ok  : Bool
  st  : ClockState
  ops : List BusOp
deriving Repr, DecidableEq

/-- `DS1307Clock::writeTime` (DS1307Lib.cpp lines 80-112): transaction 1
points at register 0x00 and writes the CH-halted seconds placeholder 0x80
followed by minutes, hours, weekday, day, month and the rebased year (written
raw, without BCD conversion, exactly as line 92 does); transaction 2 points at
register 0x00 again and writes the true BCD seconds with CH clear. -/
def writeTime (st : ClockState) (bus : WriteBus) (tm : TmElements) : WriteResult :=
  let tx1 := [0x00, 0x80, dToBcd tm.Minute, encodeHourRegister st tm.Hour,
              dToBcd tm.Wday, dToBcd tm.Day, dToBcd tm.Month, tmYearToY2k tm.Year]
  if ¬ bus.tx1Ack then
    { ok := false, st := { st with present := false }, ops := [BusOp.transmit tx1] }
  else
    let tx2 := [0x00, dToBcd tm.Second]
    if ¬ bus.tx2Ack then
      { ok := false, st := { st with present := false },
        ops := [BusOp.transmit tx1, BusOp.transmit tx2] }
    else
      { ok := true, st := { st with present := true },
        ops := [BusOp.transmit tx1, BusOp.transmit tx2] }

/-- Modelled from the spec (§6 and glossary, "burst read/write"): the chip's
time-register file 0x00-0x06 under one acknowledged transmission.  The first
payload byte sets the register pointer and each following byte lands in the
next consecutive register.  The chip itself is hardware outside this
repository; only the register-map semantics of the spec is used. -/
def applyTx (regs : List Nat) : BusOp → List Nat
  | BusOp.transmit (ptr :: data) =>
      (List.range regs.length).map fun r =>
        if ptr ≤ r ∧ r < ptr + data.length then data.getD (r - ptr) 0 % 256
        else regs.getD r 0
  | _ => regs

/-- The register file after a sequence of acknowledged transmissions. -/
def runOps (regs : List Nat) (ops : List BusOp) : List Nat :=
  ops.foldl applyTx regs

/-- Bus behaviour offered to the single-register primitives: the
acknowledgment of the pointer-write transmission (which `readReg`/`writeReg`
never inspect) and, for a read, the byte the 1-byte request makes available
(`none` when nothing arrives). -/
structure RegBus where
  ack  : Bool
  recv : Option Nat
deriving Repr, DecidableEq

/-- `DS1307Clock::readReg` (DS1307Lib.cpp lines 134-141): pointer write, then
a 1-byte request; returns the received byte, or the 0xFF sentinel when no
byte is available.  The `endTransmission()` result is discarded (line 137)
and the flags are left untouched. -/
def readReg (st : ClockState) (regAddress : Nat) (bus : RegBus) :
    Nat × ClockState × List BusOp :=
  let value := match bus.recv with
    | some b => b % 256
    | none => 0xFF
  (value, st, [BusOp.transmit [regAddress % 256], BusOp.request 1])

/-- `DS1307Clock::writeReg` (DS1307Lib.cpp lines 143-148): one transmission
carrying the register address and the value.  The `endTransmission()` result
is discarded and the flags are left untouched. -/
def writeReg (st : ClockState) (regAddress value : Nat) (bus : RegBus) :
    ClockState × List BusOp :=
  (st, [BusOp.transmit [regAddress % 256, value % 256]])

/-- `DS1307Clock::isRunning` (DS1307Lib.cpp lines 114-117): read the seconds
register through `readReg` and return the C `!` of its CH bit (bit 7). -/
def isRunning (st : ClockState) (bus : RegBus) : Nat × ClockState × List BusOp :=
  let (secondsRegister, st, ops) := readReg st 0x00 bus
  (if secondsRegister &&& 0x80 = 0 then 1 else 0, st, ops)

end DS1307

namespace DS1307

/-! ## Supporting lemmas -/

/-- `decodeHourRegister` never changes the `present` flag. -/
lemma decodeHourRegister_present (st : ClockState) (hourReg : Nat) :
    ((decodeHourRegister st hourReg).2).present = st.present := by
  by_cases h40 : hourReg % 256 &&& 0x40 ≠ 0 <;>
    by_cases h20 : hourReg % 256 &&& 0x20 ≠ 0 <;>
      simp [decodeHourRegister, h40, h20]

end DS1307

namespace DS1307

/-! ## Claim theorems -/

/-- C8: for every n in 0..99, `bcdToD (dToBcd n) = n` — the decimal-to-BCD
and BCD-to-decimal conversions are exact inverses over that domain. -/
theorem c8_bcd_roundtrip (n : Nat) (h : n ≤ 99) : bcdToD (dToBcd n) = n := by
  have key : ∀ m : Fin 100, bcdToD (dToBcd m.val) = m.val := by decide
  exact key ⟨n, by omega⟩

/-- Witness for C8 at n = 37. -/
theorem c8_bcd_roundtrip_witness : 37 ≤ 99 ∧ bcdToD (dToBcd 37) = 37 :=
  ⟨by decide, c8_bcd_roundtrip 37 (by decide)⟩

/-- C1: the claim says `decodeHourRegister (encodeHourRegister h)` returns
`h` for every hour 0..23 in either mode with `am_pm` derived as `h ≥ 12`,
including the midnight and noon boundaries in 12-hour mode.  The code
violates it exactly at those boundaries: in 12-hour mode hour 0 round-trips
to 12 and hour 12 round-trips to 0 (the decoder sends register value 12 with
PM clear to 12 and register value 12 with PM set to 24, folded to 0,
inverting the 12 AM = midnight / 12 PM = noon convention); every other hour,
and all of 24-hour mode, round-trips correctly. -/
theorem c1_hour_roundtrip_boundary_bug :
    (∀ h : Fin 24,
      (decodeHourRegister ⟨false, true, decide (h.val ≥ 12)⟩
          (encodeHourRegister ⟨false, true, decide (h.val ≥ 12)⟩ h.val)).1 =
        if h.val = 0 then 12 else if h.val = 12 then 0 else h.val) ∧
    (∀ h : Fin 24,
      (decodeHourRegister ⟨false, false, false⟩
          (encodeHourRegister ⟨false, false, false⟩ h.val)).1 = h.val) := by
  decide

/-- C4: in 12-hour mode with the PM flag derived as `hour ≥ 12`,
`encodeHourRegister 0` yields a byte whose bits 4:0 hold BCD 12 with bit 5
(PM) clear, and `encodeHourRegister 12` yields BCD 12 in bits 4:0 with bit 5
set. -/
theorem c4_encode_midnight_noon :
    encodeHourRegister ⟨false, true, decide ((0:Nat) ≥ 12)⟩ 0 &&& 0x1F = 0x12 ∧
    bcdToD (encodeHourRegister ⟨false, true, decide ((0:Nat) ≥ 12)⟩ 0 &&& 0x1F) = 12 ∧
    encodeHourRegister ⟨false, true, decide ((0:Nat) ≥ 12)⟩ 0 &&& 0x20 = 0 ∧
    encodeHourRegister ⟨false, true, decide ((12:Nat) ≥ 12)⟩ 12 &&& 0x1F = 0x12 ∧
    bcdToD (encodeHourRegister ⟨false, true, decide ((12:Nat) ≥ 12)⟩ 12 &&& 0x1F) = 12 ∧
    encodeHourRegister ⟨false, true, decide ((12:Nat) ≥ 12)⟩ 12 &&& 0x20 = 0x20 := by
  decide

end DS1307

namespace DS1307

/-- C2: the claim says a successful `writeTime` followed by a `readTime` over
a bus returning exactly the written register image reproduces every field.
Evaluated at {Second 0, Minute 5, Hour 13, Wday 2, Day 27, Month 1, Year 25}
in 24-hour mode: both write transactions succeed, the read succeeds, and
every field except Year is reproduced — Year comes back 19, because line 92
of writeTime transmits the year as a raw binary byte (25 = 0x19) while
readTime BCD-decodes it (bcdToD 0x19 = 19). -/
theorem c2_write_read_roundtrip_year_bug :
    (writeTime ⟨false, false, false⟩ ⟨true, true⟩ ⟨0, 5, 13, 2, 27, 1, 25⟩).ok = true ∧
    (readTime (writeTime ⟨false, false, false⟩ ⟨true, true⟩ ⟨0, 5, 13, 2, 27, 1, 25⟩).st
        ⟨true, runOps (List.replicate 7 0)
            (writeTime ⟨false, false, false⟩ ⟨true, true⟩ ⟨0, 5, 13, 2, 27, 1, 25⟩).ops⟩
        ⟨0, 0, 0, 0, 0, 0, 0⟩).ok = true ∧
    (readTime (writeTime ⟨false, false, false⟩ ⟨true, true⟩ ⟨0, 5, 13, 2, 27, 1, 25⟩).st
        ⟨true, runOps (List.replicate 7 0)
            (writeTime ⟨false, false, false⟩ ⟨true, true⟩ ⟨0, 5, 13, 2, 27, 1, 25⟩).ops⟩
        ⟨0, 0, 0, 0, 0, 0, 0⟩).tm = ⟨0, 5, 13, 2, 27, 1, 19⟩ ∧
    (19 : Nat) ≠ 25 := by
  decide

/-- C3: the claim says writing {year 25, month 1, day 27, weekday 2, hour 13,
minute 5, second 0} in 24-hour mode leaves registers 0x00-0x06 holding
[0x00, 0x05, 0x13, 0x02, 0x27, 0x01, 0x25].  The register image the two
write transactions actually leave is [0x00, 0x05, 0x13, 0x02, 0x27, 0x01,
0x19]: the year register receives the raw binary byte 25 = 0x19, not BCD
0x25, since line 92 omits the dToBcd conversion.  The hour register does get
0x13 and a subsequent decode of it returns hour 13 as claimed. -/
theorem c3_write_register_bytes_year_bug :
    runOps (List.replicate 7 0)
        (writeTime ⟨false, false, false⟩ ⟨true, true⟩ ⟨0, 5, 13, 2, 27, 1, 25⟩).ops =
      [0x00, 0x05, 0x13, 0x02, 0x27, 0x01, 0x19] ∧
    (0x19 : Nat) ≠ 0x25 ∧
    (decodeHourRegister ⟨true, false, false⟩ 0x13).1 = 13 := by
  decide

/-- C5 counterexample: the claim says every transmission updates `present`
(false on failure, true on success).  But `readReg` discards the result of
its `endTransmission()` (line 137): starting from `present = true`, a
`readReg` whose transmission fails and delivers no byte leaves `present`
still true. -/
theorem c5_readReg_present_counterexample :
    ((readReg ⟨true, true, false⟩ 0x07 ⟨false, none⟩).2.1).present = true := by
  decide

/-- C5 as amended: only `readTime` and `writeTime` update `present` — after
`readTime` it equals the acknowledgment of the pointer-write transmission,
after `writeTime` it is true iff both of its transmissions were acknowledged
— while `readReg`, `writeReg` and `isRunning` ignore their transmission's
outcome and leave `present` unchanged. -/
theorem c5_present_tracking_amended (st : ClockState) (rb : ReadBus)
    (wb : WriteBus) (tm tm2 : TmElements) (a v : Nat) (gb : RegBus) :
    (readTime st rb tm).st.present = rb.ptrAck ∧
    (writeTime st wb tm2).st.present = (wb.tx1Ack && wb.tx2Ack) ∧
    (readReg st a gb).2.1.present = st.present ∧
    (writeReg st a v gb).1.present = st.present ∧
    (isRunning st gb).2.1.present = st.present := by
  refine ⟨?_, ?_, rfl, rfl, rfl⟩
  · cases hp : rb.ptrAck
    · simp [readTime, hp]
    · simp only [readTime, hp]
      rw [if_neg (by simp)]
      split
      · rfl
      · split <;> simp [decodeHourRegister_present]
  · cases h1 : wb.tx1Ack <;> cases h2 : wb.tx2Ack <;> simp [writeTime, h1, h2]

end DS1307

namespace DS1307

/-- C6: whenever the pointer write was acknowledged and the burst delivers at
least the 7 requested bytes, a seconds byte with bit 7 (the CH flag) set
makes `readTime` return failure, whatever the other six bytes contain. -/
theorem c6_ch_bit_read_fails (st : ClockState) (tm : TmElements)
    (recv : List Nat) (hlen : 7 ≤ recv.length)
    (hch : recv.getD 0 0 % 256 &&& 0x80 ≠ 0) :
    (readTime st ⟨true, recv⟩ tm).ok = false := by
  have h1 : ¬ (recv.length < 7) := by omega
  have hch2 : ¬ (recv[0]?.getD 0 % 256 &&& 0x80 = 0) := by simpa using hch
  simp [readTime, h1, hch2]

/-- Witness for C6: a burst whose seconds byte is 0x85 (CH set) and whose
remaining bytes are arbitrary values makes the read fail. -/
theorem c6_ch_bit_read_fails_witness :
    7 ≤ ([0x85, 1, 2, 3, 4, 5, 6] : List Nat).length ∧
    ([0x85, 1, 2, 3, 4, 5, 6] : List Nat).getD 0 0 % 256 &&& 0x80 ≠ 0 ∧
    (readTime ⟨false, false, false⟩ ⟨true, [0x85, 1, 2, 3, 4, 5, 6]⟩
        ⟨0, 0, 0, 0, 0, 0, 0⟩).ok = false :=
  ⟨by decide, by decide,
    c6_ch_bit_read_fails ⟨false, false, false⟩ ⟨0, 0, 0, 0, 0, 0, 0⟩
      [0x85, 1, 2, 3, 4, 5, 6] (by decide) (by decide)⟩

/-- C7: if the pointer-write transmission is not acknowledged, `readTime`
sets `present` false and returns failure having issued only that one
transmission (no burst request); if the transmission succeeds but fewer than
7 bytes arrive, `readTime` returns failure with `present` left true. -/
theorem c7_read_early_failures (st : ClockState) (tm : TmElements)
    (recv : List Nat) :
    ((readTime st ⟨false, recv⟩ tm).ok = false ∧
     (readTime st ⟨false, recv⟩ tm).st.present = false ∧
     (readTime st ⟨false, recv⟩ tm).tm = tm ∧
     (readTime st ⟨false, recv⟩ tm).ops = [BusOp.transmit [0x00]]) ∧
    (recv.length < 7 →
      (readTime st ⟨true, recv⟩ tm).ok = false ∧
      (readTime st ⟨true, recv⟩ tm).st.present = true ∧
      (readTime st ⟨true, recv⟩ tm).tm = tm) := by
  refine ⟨⟨rfl, rfl, rfl, rfl⟩, fun h => ?_⟩
  simp [readTime, h]

/-- Witness for C7 at an empty burst: the short read fails with `present`
left true. -/
theorem c7_read_early_failures_witness :
    (readTime ⟨true, true, false⟩ ⟨true, ([] : List Nat)⟩
        ⟨0, 0, 0, 0, 0, 0, 0⟩).ok = false ∧
    (readTime ⟨true, true, false⟩ ⟨true, ([] : List Nat)⟩
        ⟨0, 0, 0, 0, 0, 0, 0⟩).st.present = true :=
  ⟨((c7_read_early_failures ⟨true, true, false⟩ ⟨0, 0, 0, 0, 0, 0, 0⟩ []).2
      (by decide)).1,
   ((c7_read_early_failures ⟨true, true, false⟩ ⟨0, 0, 0, 0, 0, 0, 0⟩ []).2
      (by decide)).2.1⟩

/-- C9: `isRunning` issues a pointer write of register 0x00 followed by a
1-byte request (a live read of the seconds register) and returns the C `!`
of the received byte's CH bit; when no byte arrives, the 0xFF sentinel is
decoded, so it returns 0. -/
theorem c9_isRunning_live_read (st : ClockState) (a : Bool) (b : Nat) :
    (isRunning st ⟨a, some b⟩).1 = (if b % 256 &&& 0x80 = 0 then 1 else 0) ∧
    (isRunning st ⟨a, none⟩).1 = 0 ∧
    (isRunning st ⟨a, some b⟩).2.2 = [BusOp.transmit [0x00], BusOp.request 1] ∧
    (isRunning st ⟨a, none⟩).2.2 = [BusOp.transmit [0x00], BusOp.request 1] := by
  refine ⟨?_, ?_, ?_, ?_⟩ <;> simp [isRunning, readReg]

/-- C10: the two mid-read failure modes differ in their effect on the
caller's `tm`: a short burst leaves `tm` completely untouched, while a CH-set
seconds byte fails only after every one of the seven fields has been
overwritten with the decoded values and `present` has been set true. -/
theorem c10_read_failure_tm_effects (st : ClockState) (tm : TmElements)
    (recv : List Nat) :
    (recv.length < 7 →
      (readTime st ⟨true, recv⟩ tm).ok = false ∧
      (readTime st ⟨true, recv⟩ tm).tm = tm) ∧
    (7 ≤ recv.length → recv.getD 0 0 % 256 &&& 0x80 ≠ 0 →
      (readTime st ⟨true, recv⟩ tm).ok = false ∧
      (readTime st ⟨true, recv⟩ tm).st.present = true ∧
      (readTime st ⟨true, recv⟩ tm).tm =
        { Second := bcdToD (recv.getD 0 0 % 256 &&& 0x7F),
          Minute := bcdToD (recv.getD 1 0),
          Hour := (decodeHourRegister { st with present := true } (recv.getD 2 0)).1,
          Wday := bcdToD (recv.getD 3 0),
          Day := bcdToD (recv.getD 4 0),
          Month := bcdToD (recv.getD 5 0),
          Year := y2kYearToTm (bcdToD (recv.getD 6 0)) }) := by
  constructor
  · intro h
    simp [readTime, h]
  · intro hlen hch
    have h1 : ¬ (recv.length < 7) := by omega
    have hch2 : ¬ (recv[0]?.getD 0 % 256 &&& 0x80 = 0) := by simpa using hch
    simp [readTime, h1, hch2, decodeHourRegister_present]

/-- Witness for C10: the short-read case at an empty burst leaves `tm`
untouched; the CH case at burst [0x80,0,0,0,0,0,0] sets `present` true. -/
theorem c10_read_failure_tm_effects_witness :
    (readTime ⟨false, false, false⟩ ⟨true, ([] : List Nat)⟩
        ⟨9, 9, 9, 9, 9, 9, 9⟩).tm = ⟨9, 9, 9, 9, 9, 9, 9⟩ ∧
    (readTime ⟨false, false, false⟩ ⟨true, [0x80, 0, 0, 0, 0, 0, 0]⟩
        ⟨9, 9, 9, 9, 9, 9, 9⟩).st.present = true :=
  ⟨((c10_read_failure_tm_effects ⟨false, false, false⟩ ⟨9, 9, 9, 9, 9, 9, 9⟩ []).1
      (by decide)).2,
   ((c10_read_failure_tm_effects ⟨false, false, false⟩ ⟨9, 9, 9, 9, 9, 9, 9⟩
        [0x80, 0, 0, 0, 0, 0, 0]).2 (by decide) (by decide)).2.1⟩

end DS1307
